import Mathlib

set_option maxRecDepth 100000

/-!
Verification of the cloud-spend advisor worker (`src/server.ts`, `src/d1.ts`,
and the SQL schema): a shallow embedding of the D1 storage layer, the
`/api/chat` request handler, and the worker's route dispatch, together with
theorems settling the specified properties of these components.

Modelling conventions:
* SQLite `datetime('now')` strings are modelled as `Nat` timestamps; comparing
  two timestamps with `≤` corresponds to comparing the `datetime` strings,
  which order chronologically.
* The `AUTOINCREMENT` primary key of the `messages` table is the `rowid`
  field, assigned from a counter carried in the database state; rows are kept
  in insertion (rowid) order in a list.
* A SQL `ORDER BY datetime(createdAt) ASC` result is any permutation of the
  selected rows that is sorted by `createdAt`: the query has no secondary sort
  key, so SQL fixes no order among rows with equal timestamps.  The predicate
  `chronResult` captures exactly this; the executable functions below resolve
  the query with `List.insertionSort`, one valid resolution (see
  `chronResult_insertionSort`).
* The external LLM (`env.AI.run` inside `callLlama`) is an oracle
  `List ChatMsg → Option String`; `none` models a thrown `AI service error`.
-/

namespace CloudSpend

/-- A row of the `conversations` table (schema.sql). -/
structure ThreadRow where
  threadId : String
  userId : String
  title : String
  createdAt : Nat
deriving DecidableEq, Repr

/-- A row of the `messages` table (schema.sql); `rowid` is the AUTOINCREMENT
primary key `id`, `relevant` an INTEGER that is 1 or 0. -/
structure MessageRow where
  rowid : Nat
  userId : String
  threadId : String
  role : String
  content : String
  relevant : Nat
  createdAt : Nat
deriving DecidableEq, Repr

/-- A row of the `analyses` table (schema.sql). -/
structure AnalysisRow where
  rowid : Nat
  userId : String
  threadId : String
  plan : String
  metrics : String
  comment : String
  result : String
  createdAt : Nat
deriving DecidableEq, Repr

/-- The D1 database state: the three tables (rows in insertion order) and the
AUTOINCREMENT counters. -/
structure DB where
  conversations : List ThreadRow
  messages : List MessageRow
  analyses : List AnalysisRow
  nextMsgId : Nat
  nextAnalysisId : Nat
deriving DecidableEq, Repr

def emptyDB : DB := ⟨[], [], [], 0, 0⟩

/-- `createThread` (d1.ts): inserts a conversation row with a fresh id.  The
result of `crypto.randomUUID()` is the parameter `freshId`; the caller reads
the returned id from that same parameter. -/
def createThread (db : DB) (userId freshId : String) (now : Nat) : DB :=
  { db with
    conversations := db.conversations ++ [⟨freshId, userId, "New Conversation", now⟩] }

/-- The conversation row of a user with the greatest `createdAt`
(`ORDER BY datetime(createdAt) DESC LIMIT 1`).  Among equal timestamps the
earliest inserted row is kept; the claims below only exercise this function on
states with pairwise distinct thread timestamps, where SQL determines the
answer uniquely. -/
def getLatestThread (db : DB) (userId : String) : Option String :=
  ((db.conversations.filter (fun c => c.userId == userId)).foldl
    (fun acc c =>
      match acc with
      | none => some c
      | some b => if b.createdAt < c.createdAt then some c else some b)
    none).map (fun c => c.threadId)

/-- `saveMessage` (d1.ts): appends one message row; the boolean `relevant`
argument is stored as the INTEGER 1 or 0. -/
def saveMessage (db : DB) (userId threadId role content : String)
    (relevant : Bool) (now : Nat) : DB :=
  { db with
    messages := db.messages ++
      [⟨db.nextMsgId, userId, threadId, role, content, if relevant then 1 else 0, now⟩],
    nextMsgId := db.nextMsgId + 1 }

/-- `saveAnalysis` (d1.ts): appends one analysis row. -/
def saveAnalysis (db : DB) (userId threadId plan metrics comment result : String)
    (now : Nat) : DB :=
  { db with
    analyses := db.analyses ++
      [⟨db.nextAnalysisId, userId, threadId, plan, metrics, comment, result, now⟩],
    nextAnalysisId := db.nextAnalysisId + 1 }

/-- The rows selected by `WHERE userId = ? AND threadId = ?` on `messages`,
in insertion (rowid) order. -/
def msgsOf (db : DB) (userId threadId : String) : List MessageRow :=
  db.messages.filter (fun r => r.userId == userId && r.threadId == threadId)

/-- Non-strict chronological order on message rows. -/
def timeLE (a b : MessageRow) : Prop := a.createdAt ≤ b.createdAt

/-- Strict chronological order on message rows. -/
def timeLT (a b : MessageRow) : Prop := a.createdAt < b.createdAt

instance : DecidableRel timeLE := fun a b =>
  inferInstanceAs (Decidable (a.createdAt ≤ b.createdAt))

instance : DecidableRel timeLT := fun a b =>
  inferInstanceAs (Decidable (a.createdAt < b.createdAt))

instance : IsTotal MessageRow timeLE := ⟨fun a b => Nat.le_total a.createdAt b.createdAt⟩

instance : IsTrans MessageRow timeLE := ⟨fun _ _ _ h₁ h₂ => Nat.le_trans h₁ h₂⟩

/-- The semantics of `SELECT … WHERE userId = ? AND threadId = ? ORDER BY
datetime(createdAt) ASC` on the `messages` table: a valid result is any
permutation of the matching rows that is sorted by `createdAt`.  The query
names no secondary sort key, so rows with equal timestamps may appear in any
relative order. -/
def chronResult (db : DB) (userId threadId : String) (out : List MessageRow) : Prop :=
  out.Perm (msgsOf db userId threadId) ∧ List.Sorted timeLE out

/-- The shape of elements returned by `getThreadMessages` (the `Message`
interface of d1.ts): the SELECT projects only `role` and `content`, so the
optional `relevant` field of the interface is always absent (`none`). -/
structure Message where
  role : String
  content : String
  relevant : Option Bool
deriving DecidableEq, Repr

def toMessage (r : MessageRow) : Message := ⟨r.role, r.content, none⟩

/-- `getThreadMessages` (d1.ts), with the `ORDER BY` resolved by
`List.insertionSort` (one valid resolution of `chronResult`, see
`chronResult_insertionSort`). -/
def getThreadMessages (db : DB) (userId threadId : String) : List Message :=
  (List.insertionSort timeLE (msgsOf db userId threadId)).map toMessage

/-- One `role: content` line of `getFullThreadText`. -/
def threadLine (r : MessageRow) : String := r.role ++ ": " ++ r.content

/-- `getFullThreadText` (d1.ts): the `role: content` lines of the thread
joined by newlines, or the sentinel `"No messages."` when the query returns
no rows. -/
def getFullThreadText (db : DB) (userId threadId : String) : String :=
  let rows := List.insertionSort timeLE (msgsOf db userId threadId)
  if rows.isEmpty then "No messages."
  else String.intercalate "\n" (rows.map threadLine)

/-- The `Thread` summaries returned by `listThreads` (d1.ts). -/
structure Thread where
  threadId : String
  title : String
  createdAt : Nat
  msgCount : Nat
deriving DecidableEq, Repr

/-- Reverse-chronological order on conversation rows. -/
def threadGE (a b : ThreadRow) : Prop := b.createdAt ≤ a.createdAt

instance : DecidableRel threadGE := fun a b =>
  inferInstanceAs (Decidable (b.createdAt ≤ a.createdAt))

/-- `listThreads` (d1.ts): each of the user's conversations with the count of
messages carrying its threadId (the subquery filters on `threadId` only),
newest first. -/
def listThreads (db : DB) (userId : String) : List Thread :=
  (List.insertionSort threadGE (db.conversations.filter (fun c => c.userId == userId))).map
    (fun c =>
      ⟨c.threadId, c.title, c.createdAt,
        (db.messages.filter (fun m => m.threadId == c.threadId)).length⟩)

/-- The executable resolution of the chronological query used by
`getThreadMessages` and `getFullThreadText` satisfies the relational SQL
semantics. -/
theorem chronResult_insertionSort (db : DB) (userId threadId : String) :
    chronResult db userId threadId (List.insertionSort timeLE (msgsOf db userId threadId)) :=
  ⟨List.perm_insertionSort timeLE (msgsOf db userId threadId),
    List.sorted_insertionSort timeLE (msgsOf db userId threadId)⟩

/-- Two lists that are permutations of one another are equal as soon as the
first is strictly sorted by timestamp and the second is non-strictly sorted:
with pairwise distinct timestamps a chronological query result is unique. -/
theorem eq_of_perm_of_strictSorted :
    ∀ (l out : List MessageRow), out.Perm l → l.Pairwise timeLT →
      out.Pairwise timeLE → out = l := by
  intro l
  induction l with
  | nil =>
    intro out hp _ _
    exact hp.eq_nil
  | cons a l ih =>
    intro out hp hl hout
    cases out with
    | nil => exact absurd hp.symm.eq_nil (List.cons_ne_nil a l)
    | cons b out =>
      have hba : b = a := by
        rcases List.mem_cons.mp (hp.subset (List.mem_cons_self b out)) with h | h
        · exact h
        · have hab : timeLT a b := (List.pairwise_cons.mp hl).1 b h
          rcases List.mem_cons.mp (hp.symm.subset (List.mem_cons_self a l)) with h₂ | h₂
          · subst h₂
            exact absurd hab (Nat.lt_irrefl _)
          · have hba' : timeLE b a := (List.pairwise_cons.mp hout).1 a h₂
            exact absurd hab (Nat.not_lt.mpr hba')
      subst hba
      rw [ih out hp.cons_inv (List.pairwise_cons.mp hl).2 (List.pairwise_cons.mp hout).2]

/-! ### The worker entry point (src/server.ts) -/

/-- One role-tagged turn handed to the LLM, and also the shape of the
`{role, text}` records of the history response. -/
structure ChatMsg where
  role : String
  content : String
deriving DecidableEq, Repr

/-- The JSON body of `POST /api/chat` (the `ChatRequestBody` interface). -/
structure ChatRequestBody where
  plan : Option String
  metrics : Option String
  message : Option String
  threadId : Option String
deriving DecidableEq, Repr

/-- The JSON bodies produced by the worker's API handlers. -/
inductive RespBody where
  | replyBody (reply : String) (threadId : String)
  | errorBody (error : String)
  | messagesBody (msgs : List ChatMsg)
  | threadsBody (threads : List Thread)
  | summaryBody (summary : String)
deriving DecidableEq, Repr

/-- An HTTP response: `Response.json(body)` has status 200 unless a status is
passed explicitly. -/
structure HttpResp where
  status : Nat
  body : RespBody
deriving DecidableEq, Repr

/-- JavaScript truthiness of an optional string: absent and `""` are falsy.
`!!(plan || metrics)` is `truthy plan || truthy metrics`. -/
def truthy : Option String → Bool
  | none => false
  | some s => !(s == "")

/-- The keyword alternatives of the `offTopicPatterns` regexes in
`isClearlyOffTopic`: each regex is an unanchored case-insensitive
alternation, so it matches iff one alternative occurs as a substring. -/
def offTopicKeywords : List String :=
  ["weather", "forecast", "rain", "sunny", "temperature",
   "sports", "football", "basketball", "soccer", "game", "team",
   "politics", "election", "government", "vote",
   "movies", "netflix", "entertainment", "actor", "actress",
   "cooking", "recipe", "food", "restaurant",
   "how are you", "how\x27s it going", "how do you do",
   "tell me a joke", "make me laugh",
   "what time is it", "what day is it"]

/-- ASCII lower-casing of one character; the off-topic patterns are ASCII, so
this captures the case-insensitivity of the `/…/i` regex flag. -/
def lowerChar (c : Char) : Char :=
  if 65 ≤ c.toNat ∧ c.toNat ≤ 90 then Char.ofNat (c.toNat + 32) else c

/-- Case-insensitive substring test (a `/pat/i.test(text)` for a literal
pattern). -/
def containsPattern (text pat : String) : Bool :=
  decide (pat.data.map lowerChar <:+: text.data.map lowerChar)

/-- `isClearlyOffTopic` (server.ts): false on blank input (`!text?.trim()`,
i.e. all-whitespace text), otherwise true iff some off-topic pattern
matches. -/
def isClearlyOffTopic (text : String) : Bool :=
  if text.data.all Char.isWhitespace then false
  else offTopicKeywords.any (fun p => containsPattern text p)

/-- The user prompt built by `analyzeCostsWithLLM` (the template literal of
server.ts, with the three interpolations). -/
def analysisPrompt (plan metrics comment : String) : String :=
  "\nYou are a cloud cost optimization expert.\n\nPLAN / BILLING DATA:\n"
    ++ plan ++ "\n\nUSAGE METRICS:\n" ++ metrics ++ "\n\nCOMMENT:\n" ++ comment
    ++ "\n\nTASKS:\n1. Identify inefficiencies and expensive resources.\n2. Suggest optimizations in the current provider.\n3. Propose Cloudflare alternatives (Workers, R2, KV, D1).\n4. Return (A) plain-English summary and (B) JSON array in triple backticks.\n\nBe thorough and detailed in your analysis.\n"

/-- The system turn of `analyzeCostsWithLLM`. -/
def analysisSystem : String :=
  "You are a cloud cost optimization expert. Analyze cloud billing data and provide detailed optimization suggestions with Cloudflare alternatives."

/-- The turn list `analyzeCostsWithLLM` hands to `callLlama`. -/
def analysisMessages (plan metrics comment : String) : List ChatMsg :=
  [⟨"system", analysisSystem⟩, ⟨"user", analysisPrompt plan metrics comment⟩]

/-- JavaScript `array.slice(-n)`: the trailing window of at most `n`
elements. -/
def sliceLast {α : Type} (l : List α) (n : Nat) : List α :=
  l.drop (l.length - n)

/-- The `role: content` context block interpolated into the general-chat
system prompt (`context.slice(-15).map(…).join("\n")`). -/
def contextLines (context : List Message) : String :=
  String.intercalate "\n" ((sliceLast context 15).map (fun m => m.role ++ ": " ++ m.content))

/-- The general-conversation system prompt of the `/api/chat` handler (the
`systemMessage.content` template literal). -/
def generalSystemContent (context : List Message) : String :=
  "You are Cloud FinOps Copilot, an expert in cloud cost optimization across AWS, Azure, GCP, and Cloudflare.\n\nCONVERSATION CONTEXT (last 15 messages):\n"
    ++ contextLines context
    ++ "\n\nYOUR ROLE:\n- Analyze cloud costs and suggest optimizations\n- Recommend Cloudflare alternatives (Workers, R2, KV, D1)\n- Answer follow-up questions about previous analyses\n- If users ask about unrelated topics, politely steer back to cloud costs\n\nRESPONSE GUIDELINES:\n- Be detailed and analytical for cost questions\n- Reference previous conversation context when relevant\n- For off-topic questions: \"I specialize in cloud cost optimization. I\x27d be happy to help analyze your cloud spending or suggest optimizations!\"\n- Always maintain a helpful, expert tone"

/-- The turn list of general-conversation mode: the system turn, the last 10
context messages, then the new user turn (`messages` in server.ts). -/
def chatMessages (context : List Message) (messageText : String) : List ChatMsg :=
  ⟨"system", generalSystemContent context⟩ ::
    ((sliceLast context 10).map (fun m => ChatMsg.mk m.role m.content)
      ++ [⟨"user", messageText⟩])

/-- The fixed redirect reply of the off-topic branch (`politeResponse`). -/
def politeResponse : String :=
  "I specialize in cloud cost optimization. I\x27d be happy to help you analyze cloud billing data, suggest cost savings, or discuss Cloudflare alternatives if you have any cloud infrastructure questions!"

/-- The error text of the `/api/chat` catch block. -/
def chatErrorText : String :=
  "I apologize, I\x27m having trouble processing your request right now. Please try again."

/-- Lines 256-259 of server.ts: the handler resolves the thread as the user's
latest thread, creating one when none exists; the request body's `threadId`
plays no part. -/
def resolveThread (db : DB) (userId freshId : String) (now : Nat) : String × DB :=
  match getLatestThread db userId with
  | some t => (t, db)
  | none => (freshId, createThread db userId freshId now)

/-- The outcome of one `POST /api/chat` request: the HTTP response, the
database afterwards, and the turn list handed to `callLlama` (`none` when the
LLM was never invoked). -/
structure ChatResult where
  resp : HttpResp
  db : DB
  llmInput : Option (List ChatMsg)
deriving DecidableEq, Repr

/-- The `POST /api/chat` handler of server.ts.  `llm` is the external LLM
oracle (`none` models a thrown error), `freshId` the UUID `createThread`
would draw, `context` the resolved result of the `getThreadMessages` call on
the post-user-save state (the handler's only use of it is to build prompts),
and `now` the request timestamp.  D1 writes are committed per statement, so
on an LLM failure the state keeps every write made before the call and the
catch block answers status 500. -/
def handleChat (llm : List ChatMsg → Option String) (now : Nat) (freshId : String)
    (context : List Message) (db : DB) (body : ChatRequestBody) : ChatResult :=
  let userId := "guest"
  let resolved := resolveThread db userId freshId now
  let threadId := resolved.1
  let db₁ := saveMessage resolved.2 userId threadId "user" (body.message.getD "") true now
  let hasCloudData := truthy body.plan || truthy body.metrics
  let messageText := body.message.getD ""
  if !hasCloudData && isClearlyOffTopic messageText then
    let db₂ := saveMessage db₁ userId threadId "assistant" politeResponse true now
    ⟨⟨200, .replyBody politeResponse threadId⟩, db₂, none⟩
  else if hasCloudData then
    let input := analysisMessages (body.plan.getD "") (body.metrics.getD "") (body.message.getD "")
    match llm input with
    | none => ⟨⟨500, .errorBody chatErrorText⟩, db₁, some input⟩
    | some result =>
      let db₂ := saveMessage db₁ userId threadId "assistant" result true now
      let db₃ := saveAnalysis db₂ userId threadId (body.plan.getD "")
        (body.metrics.getD "") (body.message.getD "") result now
      ⟨⟨200, .replyBody result threadId⟩, db₃, some input⟩
  else
    let input := chatMessages context messageText
    match llm input with
    | none => ⟨⟨500, .errorBody chatErrorText⟩, db₁, some input⟩
    | some reply =>
      let db₂ := saveMessage db₁ userId threadId "assistant" reply true now
      ⟨⟨200, .replyBody reply threadId⟩, db₂, some input⟩

/-- The `GET /api/chat/history` handler.  `storageFails` resolves whether a
storage call inside the `try` block throws; the `catch` block answers
`Response.json({ messages: [] })`, status 200. -/
def handleHistory (storageFails : Bool) (db : DB) : HttpResp :=
  if storageFails then ⟨200, .messagesBody []⟩
  else
    match getLatestThread db "guest" with
    | none => ⟨200, .messagesBody []⟩
    | some t =>
      ⟨200, .messagesBody ((getThreadMessages db "guest" t).map (fun m => ⟨m.role, m.content⟩))⟩

/-- The `GET /api/chat/list` handler; its `catch` block answers status 500. -/
def handleList (storageFails : Bool) (db : DB) : HttpResp :=
  if storageFails then ⟨500, .errorBody "Failed to list threads"⟩
  else ⟨200, .threadsBody (listThreads db "guest")⟩

/-- The response of the whole `POST /api/chat` route including its `catch`
block.  `storageFails` resolves whether a storage call inside the `try`
throws: any such error lands in the same `catch` as an LLM failure and
answers status 500 with the generic body (which writes were already committed
then depends on where the failure strikes, so only the response is modelled
on that branch); without a storage fault the route behaves as
`handleChat`. -/
def chatRoute (storageFails : Bool) (llm : List ChatMsg → Option String) (now : Nat)
    (freshId : String) (context : List Message) (db : DB) (body : ChatRequestBody) :
    HttpResp :=
  if storageFails then ⟨500, .errorBody chatErrorText⟩
  else (handleChat llm now freshId context db body).resp

/-- The `POST /api/chat/summarize` handler (server.ts): a missing or empty
`threadId` answers status 400 before any storage call; then a storage or LLM
failure inside the `try` lands in the `catch`, status 500; otherwise the LLM
summary of `getFullThreadText` is returned. -/
def handleSummarize (storageFails : Bool) (llm : List ChatMsg → Option String)
    (db : DB) (threadId : Option String) : HttpResp :=
  match threadId with
  | none => ⟨400, .errorBody "threadId is required"⟩
  | some t =>
    if t == "" then ⟨400, .errorBody "threadId is required"⟩
    else if storageFails then ⟨500, .errorBody "Failed to summarize"⟩
    else
      match llm [⟨"user",
        "Summarize this FinOps conversation with key cost insights and recommendations:\n"
          ++ getFullThreadText db "guest" t⟩] with
      | none => ⟨500, .errorBody "Failed to summarize"⟩
      | some summary => ⟨200, .summaryBody summary⟩

/-- The routes the worker's `fetch` dispatches on; `fallthrough` is the tail
of the function: `routeAgentRequest` and then the static-asset fallback,
neither of which is an API handler of this repository. -/
inductive Route where
  | assets
  | history
  | chat
  | list
  | summarize
  | fallthrough
deriving DecidableEq, Repr

/-- The route dispatch of `fetch` (server.ts): the if-chain on
`url.pathname` and `request.method`. -/
def matchRoute (path method : String) : Route :=
  if path = "/" ∨ ("/assets").data <+: path.data then .assets
  else if path = "/api/chat/history" ∧ method = "GET" then .history
  else if path = "/api/chat" ∧ method = "POST" then .chat
  else if path = "/api/chat/list" ∧ method = "GET" then .list
  else if path = "/api/chat/summarize" ∧ method = "POST" then .summarize
  else .fallthrough

/-! ### Structural lemmas about the `/api/chat` handler -/

theorem resolveThread_fst (db : DB) (u f : String) (n : Nat) :
    (resolveThread db u f n).1 = (getLatestThread db u).getD f := by
  unfold resolveThread
  cases getLatestThread db u <;> rfl

theorem resolveThread_messages (db : DB) (u f : String) (n : Nat) :
    (resolveThread db u f n).2.messages = db.messages := by
  unfold resolveThread
  cases getLatestThread db u <;> rfl

theorem resolveThread_nextMsgId (db : DB) (u f : String) (n : Nat) :
    (resolveThread db u f n).2.nextMsgId = db.nextMsgId := by
  unfold resolveThread
  cases getLatestThread db u <;> rfl

/-- The handler never reads the request body's `threadId`: the destructuring
`const { plan, metrics, message } = body` drops it. -/
theorem handleChat_ignores_threadId (llm : List ChatMsg → Option String) (now : Nat)
    (freshId : String) (context : List Message) (db : DB) (body : ChatRequestBody) :
    handleChat llm now freshId context db body
      = handleChat llm now freshId context db ⟨body.plan, body.metrics, body.message, none⟩ := by
  cases body
  rfl

/-- Every message row the handler adds belongs to the resolved (latest or
freshly created) thread, is owned by `"guest"`, carries `relevant = 1` and the
request timestamp. -/
theorem handleChat_new_messages (llm : List ChatMsg → Option String) (now : Nat)
    (freshId : String) (context : List Message) (db : DB) (body : ChatRequestBody) :
    ∀ m ∈ (handleChat llm now freshId context db body).db.messages,
      m ∈ db.messages ∨
        (m.userId = "guest" ∧ m.threadId = (getLatestThread db "guest").getD freshId ∧
         m.relevant = 1 ∧ m.createdAt = now) := by
  intro m hm
  rcases hres : resolveThread db "guest" freshId now with ⟨t, db0⟩
  have h1 : t = (getLatestThread db "guest").getD freshId := by
    rw [← resolveThread_fst db "guest" freshId now, hres]
  have h2 : db0.messages = db.messages := by
    rw [← resolveThread_messages db "guest" freshId now, hres]
  simp only [handleChat, hres] at hm
  split at hm
  · simp only [saveMessage, List.append_assoc, List.mem_append, h2,
      List.mem_singleton] at hm
    rcases hm with hm | hm | hm
    · exact Or.inl hm
    · subst hm; exact Or.inr ⟨rfl, h1, rfl, rfl⟩
    · subst hm; exact Or.inr ⟨rfl, h1, rfl, rfl⟩
  · split at hm
    · split at hm
      · simp only [saveMessage, List.mem_append, h2, List.mem_singleton] at hm
        rcases hm with hm | hm
        · exact Or.inl hm
        · subst hm; exact Or.inr ⟨rfl, h1, rfl, rfl⟩
      · simp only [saveAnalysis, saveMessage, List.append_assoc, List.mem_append, h2,
          List.mem_singleton] at hm
        rcases hm with hm | hm | hm
        · exact Or.inl hm
        · subst hm; exact Or.inr ⟨rfl, h1, rfl, rfl⟩
        · subst hm; exact Or.inr ⟨rfl, h1, rfl, rfl⟩
    · split at hm
      · simp only [saveMessage, List.mem_append, h2, List.mem_singleton] at hm
        rcases hm with hm | hm
        · exact Or.inl hm
        · subst hm; exact Or.inr ⟨rfl, h1, rfl, rfl⟩
      · simp only [saveMessage, List.append_assoc, List.mem_append, h2,
          List.mem_singleton] at hm
        rcases hm with hm | hm | hm
        · exact Or.inl hm
        · subst hm; exact Or.inr ⟨rfl, h1, rfl, rfl⟩
        · subst hm; exact Or.inr ⟨rfl, h1, rfl, rfl⟩

/-- Whenever the handler answers `{ reply, threadId }`, the returned
`threadId` is the resolved one. -/
theorem handleChat_resp_thread (llm : List ChatMsg → Option String) (now : Nat)
    (freshId : String) (context : List Message) (db : DB) (body : ChatRequestBody) :
    ∀ reply t,
      (handleChat llm now freshId context db body).resp.body = RespBody.replyBody reply t →
        t = (getLatestThread db "guest").getD freshId := by
  intro reply t ht
  rcases hres : resolveThread db "guest" freshId now with ⟨t₀, db0⟩
  have h1 : t₀ = (getLatestThread db "guest").getD freshId := by
    rw [← resolveThread_fst db "guest" freshId now, hres]
  simp only [handleChat, hres] at ht
  split at ht
  · cases ht; exact h1
  · split at ht
    · split at ht
      · cases ht
      · cases ht; exact h1
    · split at ht
      · cases ht
      · cases ht; exact h1

/-! ### Claim theorems -/

/-- A concrete state with two `guest` threads: `"T-old"` created at time 1 and
`"L-new"` at time 2, so `"L-new"` is the latest thread. -/
def dbTwoThreads : DB :=
  createThread (createThread emptyDB "guest" "T-old" 1) "guest" "L-new" 2

/-- Claim C1, counterexample: the request body supplies `threadId = "T-old"`, an
existing thread, yet the handler appends both the user turn and the reply to
the latest thread `"L-new"` and returns `threadId = "L-new"`. -/
theorem chat_suppliedThreadId_ignored_cex :
    dbTwoThreads.conversations.map ThreadRow.threadId = ["T-old", "L-new"] ∧
    (handleChat (fun _ => some "hi") 3 "F" [] dbTwoThreads
        ⟨none, none, some "hello", some "T-old"⟩).resp
      = ⟨200, RespBody.replyBody "hi" "L-new"⟩ ∧
    (handleChat (fun _ => some "hi") 3 "F" [] dbTwoThreads
        ⟨none, none, some "hello", some "T-old"⟩).db.messages.map MessageRow.threadId
      = ["L-new", "L-new"] ∧
    ("T-old" : String) ≠ "L-new" :=
  ⟨by decide, by decide, by decide, by decide⟩

/-- Claim C1, amended: the handler ignores the `threadId` of the request body
entirely; it always resolves the user's latest thread (creating one only when
the user has no thread at all), appends every persisted message to that
thread, and returns its id in every `{ reply, threadId }` answer. -/
theorem chat_thread_resolution (llm : List ChatMsg → Option String) (now : Nat)
    (freshId : String) (context : List Message) (db : DB) (body : ChatRequestBody) :
    handleChat llm now freshId context db body
      = handleChat llm now freshId context db ⟨body.plan, body.metrics, body.message, none⟩ ∧
    (∀ reply t,
      (handleChat llm now freshId context db body).resp.body = RespBody.replyBody reply t →
        t = (getLatestThread db "guest").getD freshId) ∧
    ∀ m ∈ (handleChat llm now freshId context db body).db.messages,
      m ∈ db.messages ∨ m.threadId = (getLatestThread db "guest").getD freshId := by
  refine ⟨handleChat_ignores_threadId llm now freshId context db body,
    handleChat_resp_thread llm now freshId context db body, fun m hm => ?_⟩
  rcases handleChat_new_messages llm now freshId context db body m hm with h | h
  · exact Or.inl h
  · exact Or.inr h.2.1

theorem chat_thread_resolution_witness :
    ("L-new" : String) = (getLatestThread dbTwoThreads "guest").getD "F" :=
  (chat_thread_resolution (fun _ => some "hi") 3 "F" [] dbTwoThreads
      ⟨none, none, some "hello", some "T-old"⟩).2.1 "hi" "L-new" (by decide)

/-- Claim C9: every message row persisted by the `/api/chat` handler — on the
off-topic, file-analysis, general-chat and LLM-failure paths alike — carries
`relevant = 1`; no path of this handler stores `relevant = 0`. -/
theorem chat_persists_relevant_true (llm : List ChatMsg → Option String) (now : Nat)
    (freshId : String) (context : List Message) (db : DB) (body : ChatRequestBody) :
    ∀ m ∈ (handleChat llm now freshId context db body).db.messages,
      m ∈ db.messages ∨ m.relevant = 1 := by
  intro m hm
  rcases handleChat_new_messages llm now freshId context db body m hm with h | h
  · exact Or.inl h
  · exact Or.inr h.2.2.1

theorem chat_persists_relevant_true_witness :
    (⟨0, "guest", "L-new", "user", "hello", 1, 3⟩ : MessageRow) ∈ dbTwoThreads.messages ∨
      (⟨0, "guest", "L-new", "user", "hello", 1, 3⟩ : MessageRow).relevant = 1 :=
  chat_persists_relevant_true (fun _ => some "hi") 3 "F" [] dbTwoThreads
    ⟨none, none, some "hello", some "T-old"⟩
    ⟨0, "guest", "L-new", "user", "hello", 1, 3⟩ (by decide)

/-- Claim C5: on a request whose message matches an off-topic pattern and
which carries no plan and no metrics content, the handler answers the fixed
redirect text (with the resolved thread id) and never invokes the LLM. -/
theorem offtopic_skips_llm (llm : List ChatMsg → Option String) (now : Nat)
    (freshId : String) (context : List Message) (db : DB) (body : ChatRequestBody)
    (hplan : truthy body.plan = false) (hmet : truthy body.metrics = false)
    (hoff : isClearlyOffTopic (body.message.getD "") = true) :
    (handleChat llm now freshId context db body).resp
      = ⟨200, RespBody.replyBody politeResponse ((getLatestThread db "guest").getD freshId)⟩ ∧
    (handleChat llm now freshId context db body).llmInput = none := by
  rcases hres : resolveThread db "guest" freshId now with ⟨t, db0⟩
  have h1 : t = (getLatestThread db "guest").getD freshId := by
    rw [← resolveThread_fst db "guest" freshId now, hres]
  simp [handleChat, hres, hplan, hmet, hoff, h1]

theorem offtopic_skips_llm_witness :
    (handleChat (fun _ => some "x") 3 "F" [] dbTwoThreads
        ⟨none, none, some "what is the weather today", none⟩).resp
      = ⟨200, RespBody.replyBody politeResponse ((getLatestThread dbTwoThreads "guest").getD "F")⟩ ∧
    (handleChat (fun _ => some "x") 3 "F" [] dbTwoThreads
        ⟨none, none, some "what is the weather today", none⟩).llmInput = none :=
  offtopic_skips_llm (fun _ => some "x") 3 "F" [] dbTwoThreads
    ⟨none, none, some "what is the weather today", none⟩ (by decide) (by decide) (by decide)

/-- Claim C4: when the LLM call throws (on either LLM path), the handler
answers status 500 with the generic error body, and the only message row
added to the store is the user's own turn, committed before the call; no
assistant message is persisted. -/
theorem chat_llm_failure_atomic (llm : List ChatMsg → Option String) (now : Nat)
    (freshId : String) (context : List Message) (db : DB) (body : ChatRequestBody)
    (hfail : ∀ ms, llm ms = none)
    (hnotOff : (!(truthy body.plan || truthy body.metrics)
        && isClearlyOffTopic (body.message.getD "")) = false) :
    (handleChat llm now freshId context db body).resp
      = ⟨500, RespBody.errorBody chatErrorText⟩ ∧
    (handleChat llm now freshId context db body).db.messages
      = db.messages ++ [⟨db.nextMsgId, "guest", (getLatestThread db "guest").getD freshId,
          "user", body.message.getD "", 1, now⟩] := by
  rcases hres : resolveThread db "guest" freshId now with ⟨t, db0⟩
  have h1 : t = (getLatestThread db "guest").getD freshId := by
    rw [← resolveThread_fst db "guest" freshId now, hres]
  have h2 : db0.messages = db.messages := by
    rw [← resolveThread_messages db "guest" freshId now, hres]
  have h3 : db0.nextMsgId = db.nextMsgId := by
    rw [← resolveThread_nextMsgId db "guest" freshId now, hres]
  by_cases hc : (truthy body.plan || truthy body.metrics) = true
  · simp [handleChat, hres, hnotOff, hc, hfail, saveMessage, h1, h2, h3]
  · have hcf : (truthy body.plan || truthy body.metrics) = false := eq_false_of_ne_true hc
    have hoff : isClearlyOffTopic (body.message.getD "") = false := by
      simpa [hcf] using hnotOff
    simp [handleChat, hres, hcf, hoff, hfail, saveMessage, h1, h2, h3]

theorem chat_llm_failure_atomic_witness :
    (handleChat (fun _ => none) 3 "F" [] dbTwoThreads ⟨none, none, some "hello", none⟩).resp
      = ⟨500, RespBody.errorBody chatErrorText⟩ ∧
    (handleChat (fun _ => none) 3 "F" [] dbTwoThreads
        ⟨none, none, some "hello", none⟩).db.messages
      = dbTwoThreads.messages ++ [⟨dbTwoThreads.nextMsgId, "guest",
          (getLatestThread dbTwoThreads "guest").getD "F", "user", "hello", 1, 3⟩] :=
  chat_llm_failure_atomic (fun _ => none) 3 "F" [] dbTwoThreads
    ⟨none, none, some "hello", none⟩ (fun _ => rfl) (by decide)

/-- Claim C10: in general-conversation mode the turn list handed to the LLM
is `chatMessages context messageText`; because the user turn was saved before
the context was fetched, whenever the trailing 10-message window of that
context contains the new user message, the turn list contains the user turn
at least twice. -/
theorem general_chat_duplicate_user_turn (llm : List ChatMsg → Option String) (now : Nat)
    (freshId : String) (context : List Message) (db : DB) (body : ChatRequestBody)
    (hplan : truthy body.plan = false) (hmet : truthy body.metrics = false)
    (hoff : isClearlyOffTopic (body.message.getD "") = false) :
    (handleChat llm now freshId context db body).llmInput
      = some (chatMessages context (body.message.getD "")) ∧
    ((⟨"user", body.message.getD "", none⟩ : Message) ∈ sliceLast context 10 →
      2 ≤ (chatMessages context (body.message.getD "")).count
            (ChatMsg.mk "user" (body.message.getD ""))) := by
  constructor
  · rcases hres : resolveThread db "guest" freshId now with ⟨t, db0⟩
    cases hllm : llm (chatMessages context (body.message.getD "")) <;>
      simp [handleChat, hres, hplan, hmet, hoff, hllm]
  · intro hmem
    have hmem2 : ChatMsg.mk "user" (body.message.getD "")
        ∈ (sliceLast context 10).map (fun m => ChatMsg.mk m.role m.content) :=
      List.mem_map.mpr ⟨⟨"user", body.message.getD "", none⟩, hmem, rfl⟩
    have hpos : 0 < ((sliceLast context 10).map (fun m => ChatMsg.mk m.role m.content)).count
        (ChatMsg.mk "user" (body.message.getD "")) := List.count_pos_iff.mpr hmem2
    simp only [chatMessages, List.count_cons, List.count_append, List.count_nil,
      beq_self_eq_true, if_true]
    omega

theorem general_chat_duplicate_user_turn_witness :
    2 ≤ (chatMessages [⟨"user", "hi", none⟩] "hi").count (ChatMsg.mk "user" "hi") :=
  (general_chat_duplicate_user_turn (fun _ => some "ok") 3 "F" [⟨"user", "hi", none⟩]
      dbTwoThreads ⟨none, none, some "hi", none⟩ (by decide) (by decide) (by decide)).2
    (by decide)

/-- A thread with two messages saved at the same timestamp
(second-resolution `datetime('now')` makes this frequent for consecutive
turns). -/
def dbEqualTimes : DB :=
  saveMessage (saveMessage (createThread emptyDB "guest" "t1" 0)
      "guest" "t1" "user" "A" true 5)
    "guest" "t1" "assistant" "B" true 5

/-- Claim C2, counterexample: with two messages inserted at the same
timestamp, the reversed list is also a valid result of the chronological
query — `ORDER BY datetime(createdAt) ASC` has no secondary key, so the SQL
semantics does not determine insertion order for equal timestamps. -/
theorem equal_timestamp_order_cex :
    chronResult dbEqualTimes "guest" "t1"
      [⟨1, "guest", "t1", "assistant", "B", 1, 5⟩, ⟨0, "guest", "t1", "user", "A", 1, 5⟩] ∧
    [⟨1, "guest", "t1", "assistant", "B", 1, 5⟩, ⟨0, "guest", "t1", "user", "A", 1, 5⟩]
      ≠ msgsOf dbEqualTimes "guest" "t1" :=
  ⟨⟨by decide, by decide⟩, by decide⟩

/-- Claim C2, amended: every valid result of the chronological query is a
`createdAt`-sorted permutation of the messages saved to the thread, and when
the saved timestamps are strictly increasing (no equal-timestamp tie) the
result is exactly the insertion order. -/
theorem getThreadMessages_order (db : DB) (u t : String) (out : List MessageRow)
    (h : chronResult db u t out) :
    out.Perm (msgsOf db u t) ∧ List.Sorted timeLE out ∧
      (List.Pairwise timeLT (msgsOf db u t) → out = msgsOf db u t) :=
  ⟨h.1, h.2, fun hstrict => eq_of_perm_of_strictSorted (msgsOf db u t) out h.1 hstrict h.2⟩

/-- A thread with two messages saved at distinct timestamps. -/
def dbDistinctTimes : DB :=
  saveMessage (saveMessage (createThread emptyDB "guest" "t1" 0)
      "guest" "t1" "user" "A" true 5)
    "guest" "t1" "assistant" "B" true 6

theorem getThreadMessages_order_witness :
    ([⟨0, "guest", "t1", "user", "A", 1, 5⟩, ⟨1, "guest", "t1", "assistant", "B", 1, 6⟩]
        : List MessageRow) = msgsOf dbDistinctTimes "guest" "t1" :=
  (getThreadMessages_order dbDistinctTimes "guest" "t1"
      [⟨0, "guest", "t1", "user", "A", 1, 5⟩, ⟨1, "guest", "t1", "assistant", "B", 1, 6⟩]
      ⟨by decide, by decide⟩).2.2 (by decide)

/-- A thread holding one message saved with `relevant = false`. -/
def dbRelevantFalse : DB :=
  saveMessage (createThread emptyDB "guest" "t1" 0) "guest" "t1" "user" "hi" false 1

/-- Claim C3, counterexample: a message saved with `relevant = false` is
stored with integer flag 0, but reading the thread back yields a message with
no `relevant` field at all (the SELECT projects only `role` and `content`),
not one whose flag is `false`. -/
theorem relevant_flag_dropped_cex :
    dbRelevantFalse.messages = [⟨0, "guest", "t1", "user", "hi", 0, 1⟩] ∧
    getThreadMessages dbRelevantFalse "guest" "t1" = [⟨"user", "hi", none⟩] ∧
    (⟨"user", "hi", none⟩ : Message).relevant ≠ some false :=
  ⟨by decide, by decide, by decide⟩

/-- Claim C3, amended: `saveMessage` with `relevant = false` persists the
flag as the stored integer 0, but `getThreadMessages` never reads the flag
back: every message it returns has `relevant = none`. -/
theorem relevant_persisted_not_returned (db : DB) (u t role content : String) (now : Nat) :
    (saveMessage db u t role content false now).messages
      = db.messages ++ [⟨db.nextMsgId, u, t, role, content, 0, now⟩] ∧
    ∀ m ∈ getThreadMessages (saveMessage db u t role content false now) u t,
      m.relevant = none := by
  constructor
  · rfl
  · intro m hm
    simp only [getThreadMessages, List.mem_map] at hm
    rcases hm with ⟨r, _, rfl⟩
    rfl

theorem relevant_persisted_not_returned_witness :
    (⟨"user", "hi", none⟩ : Message).relevant = none :=
  (relevant_persisted_not_returned (createThread emptyDB "guest" "t1" 0)
      "guest" "t1" "user" "hi" 1).2 ⟨"user", "hi", none⟩ (by decide)

/-- Claim C7: on a thread with no messages `getFullThreadText` returns the
fixed non-empty sentinel `"No messages."` (never the empty string); on a
non-empty thread it returns the `role: content` lines of a chronologically
sorted permutation of the thread's messages joined by newlines. -/
theorem getFullThreadText_spec (db : DB) (u t : String) :
    (msgsOf db u t = [] →
      getFullThreadText db u t = "No messages." ∧ getFullThreadText db u t ≠ "") ∧
    (msgsOf db u t ≠ [] →
      ∃ rows, chronResult db u t rows ∧ rows ≠ [] ∧
        getFullThreadText db u t = String.intercalate "\n" (rows.map threadLine)) := by
  constructor
  · intro hempty
    have hs : getFullThreadText db u t = "No messages." := by
      simp [getFullThreadText, hempty]
    exact ⟨hs, by rw [hs]; decide⟩
  · intro hne
    have hnil : List.insertionSort timeLE (msgsOf db u t) ≠ [] := by
      intro h0
      have hp := List.perm_insertionSort timeLE (msgsOf db u t)
      rw [h0] at hp
      exact hne hp.symm.eq_nil
    refine ⟨List.insertionSort timeLE (msgsOf db u t),
      chronResult_insertionSort db u t, hnil, ?_⟩
    simp [getFullThreadText, List.isEmpty_iff, hnil]

theorem getFullThreadText_spec_witness :
    getFullThreadText (createThread emptyDB "guest" "t1" 0) "guest" "t1" = "No messages." ∧
    getFullThreadText (createThread emptyDB "guest" "t1" 0) "guest" "t1" ≠ "" :=
  (getFullThreadText_spec (createThread emptyDB "guest" "t1" 0) "guest" "t1").1 (by decide)

/-- Claim C8, counterexample: a storage failure inside the history handler is
swallowed by its catch block: the response has status 200 — not a 500-class
status — and the success shape `{ messages: [] }`. -/
theorem history_storage_error_cex :
    handleHistory true emptyDB = ⟨200, RespBody.messagesBody []⟩ ∧
    ¬ 500 ≤ (handleHistory true emptyDB).status :=
  ⟨rfl, by decide⟩

/-- Claim C8, amended: a storage failure is surfaced as a status-500 JSON
error response by the `POST /api/chat` route (through its catch block), by
`GET /api/chat/list`, and by `POST /api/chat/summarize` (on a request that
passes its threadId validation) — but `GET /api/chat/history` catches storage
failures and answers status 200 with an empty message list (a success
shape). -/
theorem storage_error_surfacing (llm : List ChatMsg → Option String) (now : Nat)
    (freshId : String) (context : List Message) (db : DB) (body : ChatRequestBody)
    (t : String) (ht : t ≠ "") :
    chatRoute true llm now freshId context db body
      = ⟨500, RespBody.errorBody chatErrorText⟩ ∧
    handleList true db = ⟨500, RespBody.errorBody "Failed to list threads"⟩ ∧
    handleSummarize true llm db (some t)
      = ⟨500, RespBody.errorBody "Failed to summarize"⟩ ∧
    handleHistory true db = ⟨200, RespBody.messagesBody []⟩ := by
  refine ⟨rfl, rfl, ?_, rfl⟩
  simp [handleSummarize, ht]

theorem storage_error_surfacing_witness :
    chatRoute true (fun _ => some "x") 3 "F" [] emptyDB ⟨none, none, some "hi", none⟩
      = ⟨500, RespBody.errorBody chatErrorText⟩ ∧
    handleList true emptyDB = ⟨500, RespBody.errorBody "Failed to list threads"⟩ ∧
    handleSummarize true (fun _ => some "x") emptyDB (some "t1")
      = ⟨500, RespBody.errorBody "Failed to summarize"⟩ ∧
    handleHistory true emptyDB = ⟨200, RespBody.messagesBody []⟩ :=
  storage_error_surfacing (fun _ => some "x") 3 "F" [] emptyDB
    ⟨none, none, some "hi", none⟩ "t1" (by decide)

/-- Claim C6: the worker's route dispatch sends `POST /api/chat/new` to no
API handler of this repository — it falls through to the external agent
router / static-asset fallback, so no handler producing `{ threadId }` runs,
although `useChat.handleNewChat` calls this endpoint and requires a
`threadId` in its response. -/
theorem chat_new_route_unhandled :
    matchRoute "/api/chat/new" "POST" = Route.fallthrough := by decide

end CloudSpend
